import Mathlib

/-!
Verification of the ciboard progressive search loader
(`src/slices/artifactsSlice.ts`) and the build tag-history merger
(`src/components/ArtifactDetailedInfo.tsx`), as a shallow embedding.
-/

namespace Ciboard

/-! ## Build tag-history merger (ArtifactDetailedInfo.tsx, `HistoryList`) -/

/-- A `KojiBuildTagging` record as consumed by `HistoryList`.  The revoke
fields are optional (`revoke_ts?`, `revoker_id?`, `revoker_name?` in the
GraphQL type); `Option` models presence vs `nil`/`undefined`. -/
structure KojiBuildTagging where
  tag_name : String
  active : Bool
  create_ts : Int
  creator_id : Int
  creator_name : String
  revoke_ts : Option Int
  revoker_id : Option Int
  revoker_name : Option String
deriving Repr, DecidableEq

/-- The `TagActionHistoryType` interface from `ArtifactDetailedInfo.tsx`. -/
structure TagActionHistoryType where
  action : String
  active : Bool
  person_id : Int
  person_name : String
  tag_name : String
  time : Int
deriving Repr, DecidableEq

/-- JavaScript truthiness of an optional number (`undefined` and `0` are
falsy, every other integer is truthy). -/
def truthyOptInt : Option Int → Bool
  | none => false
  | some n => n != 0

/-- JavaScript truthiness of an optional string (`undefined` and `""` are
falsy). -/
def truthyOptStr : Option String → Bool
  | none => false
  | some s => s != ""

/-- The guard `_.every([e.revoke_ts, e.revoker_name, e.revoker_id])` in
`HistoryList`: lodash `every` with no iteratee checks each element for
truthiness. -/
def revokeGate (e : KojiBuildTagging) : Bool :=
  truthyOptInt e.revoke_ts && truthyOptStr e.revoker_name &&
    truthyOptInt e.revoker_id

/-- The first `lines.push` of `HistoryList`: the Tagged entry. -/
def taggedEntry (e : KojiBuildTagging) : TagActionHistoryType :=
  { action := "tagged into"
    active := e.active
    time := e.create_ts
    tag_name := e.tag_name
    person_id := e.creator_id
    person_name := e.creator_name }

/-- The second `lines.push` of `HistoryList`: the Untagged entry (the `!`
non-null assertions are modelled with `getD`; the guard ensures the fields
are present whenever this entry is emitted). -/
def untaggedEntry (e : KojiBuildTagging) : TagActionHistoryType :=
  { action := "untagged from"
    active := false
    time := e.revoke_ts.getD 0
    tag_name := e.tag_name
    person_id := e.revoker_id.getD 0
    person_name := e.revoker_name.getD "" }

/-- The entries pushed onto `lines` for one record of `history`. -/
def emitRecord (e : KojiBuildTagging) : List TagActionHistoryType :=
  if revokeGate e then [taggedEntry e, untaggedEntry e] else [taggedEntry e]

/-- The comparison key of `_.orderBy(lines, [time], [asc])`. -/
def histLE (a b : TagActionHistoryType) : Prop :=
  a.time ≤ b.time

instance : DecidableRel histLE := fun a b =>
  inferInstanceAs (Decidable (a.time ≤ b.time))

instance : IsTotal TagActionHistoryType histLE :=
  ⟨fun x y => Int.le_total x.time y.time⟩

instance : IsTrans TagActionHistoryType histLE :=
  ⟨fun _ _ _ h1 h2 => le_trans h1 h2⟩

/-- Strict variant of the sort key, used to reason about determinism when
all timestamps are distinct. -/
def histLT (a b : TagActionHistoryType) : Prop :=
  a.time < b.time

instance : IsAntisymm TagActionHistoryType histLT :=
  ⟨fun _ _ h1 h2 => absurd (lt_trans h1 h2) (lt_irrefl _)⟩

/-- The whole `HistoryList` data pipeline: emit entries for every record,
then `_.orderBy` ascending by `time` (a stable comparison sort; modelled
with insertion sort, which is also stable). -/
def mergeHistory (history : List KojiBuildTagging) : List TagActionHistoryType :=
  List.insertionSort histLE (history.flatMap emitRecord)

/-- The suffix computed by `HistoryListEntry`: the flag is the string
`[still active]` when `entry.active` holds and is empty otherwise. -/
def stillActiveFlag (entry : TagActionHistoryType) : String :=
  if entry.active then "[still active]" else ""

/-! ## Progressive search loader (artifactsSlice.ts) -/

/-- An artifact hit as shaped by `responseToState` (the three fields the
`_.map` projection keeps). -/
structure Artifact where
  hit_info : String
  hit_source : String
  greenwaveDecision : String
deriving Repr, DecidableEq

/-- The object at `hits_info.total` when present (`value` is typed
`number`). -/
structure TotalField where
  value : Int
deriving Repr, DecidableEq

/-- The `hits_info` object: `total` may be absent at runtime (the reducer
reads it defensively with `_.get` and a default). -/
structure HitsInfo where
  total : Option TotalField
deriving Repr, DecidableEq

/-- The `artListPayload` interface of `artifactsSlice.ts`. -/
structure ArtListPayload where
  hits : List Artifact
  error : Option String
  hits_info : HitsInfo
deriving Repr, DecidableEq

/-- The `IStateArtifacts` redux state. -/
structure IStateArtifacts where
  error : Option String
  artList : List Artifact
  hits_info : HitsInfo
  isLoading : Bool
  totalHits : Int
  isLoadingExtended : Bool
deriving Repr, DecidableEq

/-- `INITIAL_STATE` of the slice. -/
def INITIAL_STATE : IStateArtifacts :=
  { error := none
    artList := []
    hits_info := { total := none }
    isLoading := false
    totalHits := 0
    isLoadingExtended := false }

/-- `_.get(action.payload, x, 0)` along the path `hits_info.total.value`:
the stored number when the whole path resolves, the default `0` when any
link is missing. -/
def getTotalValueD (p : ArtListPayload) (d : Int) : Int :=
  match p.hits_info.total with
  | some t => t.value
  | none => d

/-- The `artList` reducer. -/
def artListReducer (state : IStateArtifacts) (payload : ArtListPayload) :
    IStateArtifacts :=
  { state with
    error := payload.error
    artList := payload.hits
    hits_info := payload.hits_info
    isLoading := false
    isLoadingExtended := false
    totalHits := getTotalValueD payload 0 }

/-- The `isLoading` reducer: set the flag, and when it is `true` also reset
`hits_info`, `artList` and `error`. -/
def isLoadingReducer (state : IStateArtifacts) (payload : Bool) :
    IStateArtifacts :=
  let s := { state with isLoading := payload }
  if payload then
    { s with hits_info := { total := none }, artList := [], error := none }
  else s

/-- The `isLoadingExtended` reducer: set the flag, touch nothing else. -/
def isLoadingExtendedReducer (state : IStateArtifacts) (payload : Bool) :
    IStateArtifacts :=
  { state with isLoadingExtended := payload }

/-- A primitive JavaScript value a `throw` site may produce when it does
not throw an `Error` object. -/
inductive JsValue
  | str (s : String)
  | num (n : Int)
  | nullv
deriving Repr, DecidableEq

/-- `_.toString`: identity on strings, decimal rendering of numbers, and
the empty string for `null`/`undefined`. -/
def lodashToString : JsValue → String
  | .str s => s
  | .num n => toString n
  | .nullv => ""

/-- A thrown value as classified by the catch block: either a structured
`Error` object (`_.isError` true) carrying a message, or a raw value. -/
inductive JsError
  | errorObj (message : String)
  | rawValue (v : JsValue)
deriving Repr, DecidableEq

/-- The `errorText` computation of the catch block in `actLoad`:
`_.isError(error) ? error.message : _.toString(error)`. -/
def extractErrorText : JsError → String
  | .errorObj m => m
  | .rawValue v => lodashToString v

/-- The `artifacts` field of a successful GraphQL response,
`response.data.artifacts`. -/
structure ArtifactsField where
  hits : List Artifact
  hits_info : HitsInfo
deriving Repr, DecidableEq

/-- `response.data`. -/
structure ResponseData where
  artifacts : ArtifactsField
deriving Repr, DecidableEq

/-- A successful `client.query` response. -/
structure Response where
  data : ResponseData
deriving Repr, DecidableEq

/-- The result shape of `responseToState`. -/
structure HitsResult where
  hits : List Artifact
  hits_info : HitsInfo
deriving Repr, DecidableEq

/-- `responseToState`: destructure `response.data.artifacts` into
`{hits, hits_info}` (the per-hit `_.map` projection is the identity on the
three kept fields). -/
def responseToState (response : Response) : HitsResult :=
  { hits := response.data.artifacts.hits
    hits_info := response.data.artifacts.hits_info }

/-- A redux action dispatched by `actLoad`. -/
inductive Action
  | artListAct (p : ArtListPayload)
  | isLoadingAct (b : Bool)
  | isLoadingExtendedAct (b : Bool)
deriving Repr, DecidableEq

/-- Which of the two GraphQL queries is issued. -/
inductive QueryKind
  | fast
  | slow
deriving Repr, DecidableEq

/-- An observable step of `actLoad`: a dispatch to the store, or the start
of a network query. -/
inductive Event
  | dispatch (a : Action)
  | query (q : QueryKind)
deriving Repr, DecidableEq

/-- The payload `{hits: [], hits_info: {total: {value: 0}}, error}`
dispatched by the catch block. -/
def errorPublish (e : JsError) : ArtListPayload :=
  { hits := []
    hits_info := { total := some { value := 0 } }
    error := some (extractErrorText e) }

/-- The payload of a success publish, `dispatch(actArtList(artList))`:
the shaped hits and hits_info; no `error` field, so `error` is
`undefined`. -/
def successPublish (r : HitsResult) : ArtListPayload :=
  { hits := r.hits
    hits_info := r.hits_info
    error := none }

/-- The `actLoad` thunk as a trace of observable events.  Its two awaited
query outcomes are inputs: `fastR` for `ArtifactsSearchFastQuery1` and
`slowR` for `ArtifactsSearchSlowQuery2` (the latter is consulted only if
the slow query is actually issued).  A rejected promise propagates to the
single catch block, which dispatches the error publish. -/
def actLoad (fastR slowR : Except JsError Response) : List Event :=
  Event.dispatch (Action.isLoadingAct true) ::
  Event.query QueryKind.fast ::
  match fastR with
  | .error e => [Event.dispatch (Action.artListAct (errorPublish e))]
  | .ok resp =>
    Event.dispatch (Action.artListAct (successPublish (responseToState resp))) ::
    if (responseToState resp).hits.isEmpty then []
    else
      Event.dispatch (Action.isLoadingExtendedAct true) ::
      Event.query QueryKind.slow ::
      match slowR with
      | .error e => [Event.dispatch (Action.artListAct (errorPublish e))]
      | .ok resp2 =>
        [Event.dispatch (Action.artListAct (successPublish (responseToState resp2)))]

/-- Apply one dispatched action through the slice reducers. -/
def applyAction (s : IStateArtifacts) : Action → IStateArtifacts
  | .artListAct p => artListReducer s p
  | .isLoadingAct b => isLoadingReducer s b
  | .isLoadingExtendedAct b => isLoadingExtendedReducer s b

/-- Apply one event: queries do not change the store. -/
def applyEvent (s : IStateArtifacts) : Event → IStateArtifacts
  | .dispatch a => applyAction s a
  | .query _ => s

/-- Run a trace of events against the store. -/
def runTrace (s : IStateArtifacts) (es : List Event) : IStateArtifacts :=
  es.foldl applyEvent s

/-! ## Theorems -/

/-- C5: dispatching the `isLoading` action with `true` sets the `isLoading`
flag, resets the result list to empty and clears the error, while the
total count and the `isLoadingExtended` flag keep their previous values. -/
theorem isLoading_true_effects (s : IStateArtifacts) :
    (isLoadingReducer s true).isLoading = true ∧
    (isLoadingReducer s true).artList = [] ∧
    (isLoadingReducer s true).error = none ∧
    (isLoadingReducer s true).totalHits = s.totalHits ∧
    (isLoadingReducer s true).isLoadingExtended = s.isLoadingExtended := by
  simp [isLoadingReducer]

/-- C6: every `artList` publish forces both loading flags to `false`,
replaces the result list with the payload hits, replaces the total count
with the value read from the payload, and sets the error slot from the
payload (hence clears it on a success payload, which carries no error). -/
theorem artList_publish_effects (s : IStateArtifacts) (p : ArtListPayload) :
    (artListReducer s p).isLoading = false ∧
    (artListReducer s p).isLoadingExtended = false ∧
    (artListReducer s p).artList = p.hits ∧
    (artListReducer s p).totalHits = getTotalValueD p 0 ∧
    (artListReducer s p).error = p.error ∧
    (p.error = none → (artListReducer s p).error = none) := by
  refine ⟨rfl, rfl, rfl, rfl, rfl, fun h => ?_⟩
  simpa [artListReducer] using h

/-- C7: dispatching the `isLoadingExtended` action changes only the
`isLoadingExtended` flag; results, total count, error, `isLoading` and
`hits_info` are all untouched. -/
theorem isLoadingExtended_frame (s : IStateArtifacts) (b : Bool) :
    (isLoadingExtendedReducer s b).isLoadingExtended = b ∧
    (isLoadingExtendedReducer s b).artList = s.artList ∧
    (isLoadingExtendedReducer s b).totalHits = s.totalHits ∧
    (isLoadingExtendedReducer s b).error = s.error ∧
    (isLoadingExtendedReducer s b).isLoading = s.isLoading ∧
    (isLoadingExtendedReducer s b).hits_info = s.hits_info :=
  ⟨rfl, rfl, rfl, rfl, rfl, rfl⟩

/-- C10: after every `artList` dispatch the published `totalHits` equals
the number stored at `hits_info.total.value` when that path is present and
`0` when it is absent; in either case it is a defined number (the field is
total, never undefined). -/
theorem totalHits_always_defined (s : IStateArtifacts) (p : ArtListPayload) :
    (∃ t, p.hits_info.total = some t ∧
      (artListReducer s p).totalHits = t.value) ∨
    (p.hits_info.total = none ∧ (artListReducer s p).totalHits = 0) := by
  cases h : p.hits_info.total with
  | some t =>
    exact Or.inl ⟨t, rfl, by simp [artListReducer, getTotalValueD, h]⟩
  | none =>
    exact Or.inr ⟨rfl, by simp [artListReducer, getTotalValueD, h]⟩

/-- C8: when a load fails, the published error string is the thrown
value message text when the thrown value is a structured `Error` object,
and the lodash string coercion of the thrown value otherwise; the state
carries the message in its single `error` slot (an optional string, no
code). -/
theorem actLoad_error_shaping (s0 : IStateArtifacts)
    (fastR slowR : Except JsError Response) (e : JsError)
    (h : fastR = .error e) :
    (runTrace s0 (actLoad fastR slowR)).error =
      some (match e with
        | .errorObj m => m
        | .rawValue v => lodashToString v) := by
  subst h
  cases e with
  | errorObj m =>
    simp [actLoad, runTrace, applyEvent, applyAction, artListReducer,
      errorPublish, extractErrorText]
  | rawValue v =>
    simp [actLoad, runTrace, applyEvent, applyAction, artListReducer,
      errorPublish, extractErrorText]

/-- Witness for C8 at a concrete raw thrown value. -/
theorem actLoad_error_shaping_witness :
    (runTrace INITIAL_STATE
      (actLoad (.error (JsError.rawValue (JsValue.num 7)))
        (.ok ⟨⟨⟨[], ⟨none⟩⟩⟩⟩))).error = some "7" :=
  actLoad_error_shaping INITIAL_STATE
    (.error (JsError.rawValue (JsValue.num 7))) (.ok ⟨⟨⟨[], ⟨none⟩⟩⟩⟩)
    (JsError.rawValue (JsValue.num 7)) rfl

/-- C2: if either query rejects, the final published state is the empty
list with total count `0`, the extracted message in `error`, and both
loading flags `false`; a slow-stage failure lands in the same catch block
and so discards the fast-stage results already published. -/
theorem actLoad_failure_collapses (s0 : IStateArtifacts)
    (fastR slowR : Except JsError Response) (e : JsError)
    (h : fastR = .error e ∨
      ∃ resp, fastR = .ok resp ∧ (responseToState resp).hits ≠ [] ∧
        slowR = .error e) :
    (runTrace s0 (actLoad fastR slowR)).artList = [] ∧
    (runTrace s0 (actLoad fastR slowR)).totalHits = 0 ∧
    (runTrace s0 (actLoad fastR slowR)).error = some (extractErrorText e) ∧
    (runTrace s0 (actLoad fastR slowR)).isLoading = false ∧
    (runTrace s0 (actLoad fastR slowR)).isLoadingExtended = false := by
  rcases h with h | ⟨resp, hok, hne, herr⟩
  · subst h
    simp [actLoad, runTrace, applyEvent, applyAction, artListReducer,
      errorPublish, getTotalValueD]
  · subst hok; subst herr
    have hempty : (responseToState resp).hits.isEmpty = false := by
      simpa using hne
    simp [actLoad, runTrace, applyEvent, applyAction, artListReducer,
      isLoadingReducer, isLoadingExtendedReducer, errorPublish,
      getTotalValueD, hempty]

/-- Two concrete artifacts used by witnesses. -/
def artA : Artifact :=
  { hit_info := "i1", hit_source := "s1", greenwaveDecision := "g1" }

/-- Second concrete artifact. -/
def artB : Artifact :=
  { hit_info := "i2", hit_source := "s2", greenwaveDecision := "g2" }

/-- A concrete fast response carrying two hits and a total of 10. -/
def fastResp2 : Response :=
  { data := { artifacts :=
      { hits := [artA, artB], hits_info := { total := some { value := 10 } } } } }

/-- Witness for C2: the slow stage fails after a fast stage that returned
two hits, and the final state is the empty error state. -/
theorem actLoad_failure_collapses_witness :
    (runTrace INITIAL_STATE
      (actLoad (.ok fastResp2) (.error (JsError.errorObj "boom")))).artList = [] ∧
    (runTrace INITIAL_STATE
      (actLoad (.ok fastResp2) (.error (JsError.errorObj "boom")))).totalHits = 0 ∧
    (runTrace INITIAL_STATE
      (actLoad (.ok fastResp2) (.error (JsError.errorObj "boom")))).error =
        some "boom" ∧
    (runTrace INITIAL_STATE
      (actLoad (.ok fastResp2) (.error (JsError.errorObj "boom")))).isLoading =
        false ∧
    (runTrace INITIAL_STATE
      (actLoad (.ok fastResp2)
        (.error (JsError.errorObj "boom")))).isLoadingExtended = false :=
  actLoad_failure_collapses INITIAL_STATE (.ok fastResp2)
    (.error (JsError.errorObj "boom")) (JsError.errorObj "boom")
    (Or.inr ⟨fastResp2, rfl, by decide, rfl⟩)

/-- C3: the slow query is issued exactly when the fast query succeeded
with a non-empty hit list, and then only after the fast publish; when the
fast query returns zero hits the whole trace stops at the fast publish
(whose payload carries no error), so with a reported total of `0` the
final state is the empty result with `error` undefined and no slow
query. -/
theorem actLoad_slow_gating (fastR slowR : Except JsError Response) :
    (Event.query QueryKind.slow ∈ actLoad fastR slowR ↔
      ∃ resp, fastR = .ok resp ∧ (responseToState resp).hits ≠ []) ∧
    (∀ resp, fastR = .ok resp → (responseToState resp).hits = [] →
      actLoad fastR slowR =
        [Event.dispatch (Action.isLoadingAct true),
         Event.query QueryKind.fast,
         Event.dispatch (Action.artListAct (successPublish (responseToState resp)))]) ∧
    (∀ resp, fastR = .ok resp → (responseToState resp).hits ≠ [] →
      ∃ rest, actLoad fastR slowR =
        [Event.dispatch (Action.isLoadingAct true),
         Event.query QueryKind.fast,
         Event.dispatch (Action.artListAct (successPublish (responseToState resp))),
         Event.dispatch (Action.isLoadingExtendedAct true),
         Event.query QueryKind.slow] ++ rest) ∧
    (∀ s0 resp, fastR = .ok resp → (responseToState resp).hits = [] →
      resp.data.artifacts.hits_info = { total := some { value := 0 } } →
      (runTrace s0 (actLoad fastR slowR)).artList = [] ∧
      (runTrace s0 (actLoad fastR slowR)).error = none ∧
      (runTrace s0 (actLoad fastR slowR)).totalHits = 0) := by
  refine ⟨?_, ?_, ?_, ?_⟩
  · constructor
    · intro hmem
      cases fastR with
      | error e =>
        simp [actLoad] at hmem
      | ok resp =>
        refine ⟨resp, rfl, ?_⟩
        intro hnil
        have hempty : (responseToState resp).hits.isEmpty = true := by
          simp [hnil]
        simp [actLoad, hempty] at hmem
    · rintro ⟨resp, hok, hne⟩
      subst hok
      have hempty : (responseToState resp).hits.isEmpty = false := by
        simpa using hne
      cases slowR with
      | error e => simp [actLoad, hempty]
      | ok resp2 => simp [actLoad, hempty]
  · intro resp hok hnil
    subst hok
    have hempty : (responseToState resp).hits.isEmpty = true := by
      simp [hnil]
    simp [actLoad, hempty]
  · intro resp hok hne
    subst hok
    have hempty : (responseToState resp).hits.isEmpty = false := by
      simpa using hne
    cases slowR with
    | error e =>
      exact ⟨[Event.dispatch (Action.artListAct (errorPublish e))],
        by simp [actLoad, hempty]⟩
    | ok resp2 =>
      exact ⟨[Event.dispatch
          (Action.artListAct (successPublish (responseToState resp2)))],
        by simp [actLoad, hempty]⟩
  · intro s0 resp hok hnil hinfo
    subst hok
    have hempty : (responseToState resp).hits.isEmpty = true := by
      simp [hnil]
    have hnil2 : resp.data.artifacts.hits = [] := hnil
    refine ⟨?_, ?_, ?_⟩ <;>
      simp [actLoad, hempty, runTrace, applyEvent, applyAction,
        artListReducer, isLoadingReducer, successPublish, getTotalValueD,
        responseToState, hnil2, hinfo]

/-- A concrete fast response with zero hits and a total of 0. -/
def emptyResp : Response :=
  { data := { artifacts :=
      { hits := [], hits_info := { total := some { value := 0 } } } } }

/-- Witness for C3 at the concrete empty fast response: the trace stops at
the fast publish, the final state is empty with no error, and the slow
query is never issued. -/
theorem actLoad_slow_gating_witness :
    actLoad (.ok emptyResp) (.ok fastResp2) =
      [Event.dispatch (Action.isLoadingAct true),
       Event.query QueryKind.fast,
       Event.dispatch (Action.artListAct (successPublish (responseToState emptyResp)))] ∧
    (runTrace INITIAL_STATE (actLoad (.ok emptyResp) (.ok fastResp2))).artList = [] ∧
    (runTrace INITIAL_STATE (actLoad (.ok emptyResp) (.ok fastResp2))).error = none ∧
    (runTrace INITIAL_STATE (actLoad (.ok emptyResp) (.ok fastResp2))).totalHits = 0 ∧
    Event.query QueryKind.slow ∉ actLoad (.ok emptyResp) (.ok fastResp2) := by
  refine ⟨(actLoad_slow_gating (.ok emptyResp) (.ok fastResp2)).2.1 emptyResp rfl rfl,
    ?_, ?_, ?_, ?_⟩
  · exact ((actLoad_slow_gating (.ok emptyResp) (.ok fastResp2)).2.2.2
      INITIAL_STATE emptyResp rfl rfl rfl).1
  · exact ((actLoad_slow_gating (.ok emptyResp) (.ok fastResp2)).2.2.2
      INITIAL_STATE emptyResp rfl rfl rfl).2.1
  · exact ((actLoad_slow_gating (.ok emptyResp) (.ok fastResp2)).2.2.2
      INITIAL_STATE emptyResp rfl rfl rfl).2.2
  · intro hmem
    obtain ⟨resp, hok, hne⟩ :=
      ((actLoad_slow_gating (.ok emptyResp) (.ok fastResp2)).1).mp hmem
    have : emptyResp = resp := by
      simpa using hok
    exact hne (by simp [← this, responseToState, emptyResp])

/-- The truthiness gate, spelled out: all three revoke fields are present
AND non-falsy (nonzero timestamp, nonempty name, nonzero id). -/
theorem revokeGate_iff (e : KojiBuildTagging) :
    revokeGate e = true ↔
      ((∃ t, e.revoke_ts = some t ∧ t ≠ 0) ∧
       (∃ n, e.revoker_name = some n ∧ n ≠ "") ∧
       (∃ i, e.revoker_id = some i ∧ i ≠ 0)) := by
  unfold revokeGate truthyOptInt truthyOptStr
  cases e.revoke_ts <;> cases e.revoker_name <;> cases e.revoker_id <;>
    simp [and_assoc]

/-- The record of the C1 counterexample: all three revoke fields are
present, but the revoker id is `0`, which is falsy in JavaScript. -/
def c1Record : KojiBuildTagging :=
  { tag_name := "t1"
    active := false
    create_ts := 100
    creator_id := 1
    creator_name := "a"
    revoke_ts := some 200
    revoker_id := some 0
    revoker_name := some "b" }

/-- C1 counterexample: on a record whose revoke timestamp, revoker id and
revoker name are all present but whose revoker id is `0`, `HistoryList`
emits only the Tagged entry and no Untagged entry, because lodash
`_.every` with no iteratee tests truthiness, not presence. -/
theorem emitRecord_presence_counterexample :
    c1Record.revoke_ts = some 200 ∧ c1Record.revoker_id = some 0 ∧
    c1Record.revoker_name = some "b" ∧
    emitRecord c1Record = [taggedEntry c1Record] ∧
    ¬ ∃ u ∈ emitRecord c1Record, u.action = "untagged from" := by
  decide

/-- C1 (amended): a record yields an additional Untagged entry if and only
if its revoke timestamp, revoker name and revoker id are all present and
truthy (timestamp and id nonzero, name nonempty); otherwise it yields only
the Tagged entry. -/
theorem emitRecord_untagged_iff (e : KojiBuildTagging) :
    ((∃ u ∈ emitRecord e, u.action = "untagged from") ↔
      ((∃ t, e.revoke_ts = some t ∧ t ≠ 0) ∧
       (∃ n, e.revoker_name = some n ∧ n ≠ "") ∧
       (∃ i, e.revoker_id = some i ∧ i ≠ 0))) ∧
    (emitRecord e = [taggedEntry e, untaggedEntry e] ∨
      emitRecord e = [taggedEntry e]) := by
  by_cases hg : revokeGate e = true
  · refine ⟨⟨fun _ => (revokeGate_iff e).mp hg, fun _ => ?_⟩, ?_⟩
    · exact ⟨untaggedEntry e, by simp [emitRecord, hg], rfl⟩
    · left; simp [emitRecord, hg]
  · refine ⟨⟨?_, fun hconds => absurd ((revokeGate_iff e).mpr hconds) hg⟩, ?_⟩
    · rintro ⟨u, hu, hact⟩
      simp [emitRecord, hg] at hu
      subst hu
      simp [taggedEntry] at hact
    · right; simp [emitRecord, hg]

/-- C4: the merged timeline is always sorted ascending by `time` (every
adjacent pair is non-decreasing, ties included), and when all emitted
entries carry pairwise distinct times the output is the same for any
permutation of the input records. -/
theorem mergeHistory_sorted_and_order_independent
    (l l2 : List KojiBuildTagging) :
    List.Chain' (fun a b => a.time ≤ b.time) (mergeHistory l) ∧
    (List.Perm l l2 →
      ((l.flatMap emitRecord).Pairwise fun a b => a.time ≠ b.time) →
      mergeHistory l = mergeHistory l2) := by
  have hs1 : List.Sorted histLE (mergeHistory l) :=
    List.sorted_insertionSort histLE (l.flatMap emitRecord)
  refine ⟨List.Pairwise.chain' hs1, fun hperm hdist => ?_⟩
  have hs2 : List.Sorted histLE (mergeHistory l2) :=
    List.sorted_insertionSort histLE (l2.flatMap emitRecord)
  have hp1 : List.Perm (mergeHistory l) (l.flatMap emitRecord) :=
    List.perm_insertionSort histLE (l.flatMap emitRecord)
  have hp2 : List.Perm (mergeHistory l2) (l2.flatMap emitRecord) :=
    List.perm_insertionSort histLE (l2.flatMap emitRecord)
  have hbind : List.Perm (l.flatMap emitRecord) (l2.flatMap emitRecord) :=
    hperm.flatMap_right emitRecord
  have hSS : List.Perm (mergeHistory l) (mergeHistory l2) :=
    (hp1.trans hbind).trans hp2.symm
  have hd1 : (mergeHistory l).Pairwise fun a b => a.time ≠ b.time :=
    (hp1.pairwise_iff fun h => Ne.symm h).mpr hdist
  have hd2 : (mergeHistory l2).Pairwise fun a b => a.time ≠ b.time :=
    (hSS.symm.pairwise_iff fun h => Ne.symm h).mpr hd1
  have hlt1 : List.Sorted histLT (mergeHistory l) := by
    have := List.Pairwise.and hs1 hd1
    exact this.imp fun h => lt_of_le_of_ne h.1 h.2
  have hlt2 : List.Sorted histLT (mergeHistory l2) := by
    have := List.Pairwise.and hs2 hd2
    exact this.imp fun h => lt_of_le_of_ne h.1 h.2
  exact List.eq_of_perm_of_sorted hSS hlt1 hlt2

/-- First record of the C4 witness, tagged at time 300. -/
def recT300 : KojiBuildTagging :=
  { tag_name := "t3"
    active := true
    create_ts := 300
    creator_id := 3
    creator_name := "c"
    revoke_ts := none
    revoker_id := none
    revoker_name := none }

/-- Second record of the C4 witness, tagged at time 100. -/
def recT100 : KojiBuildTagging :=
  { tag_name := "t1"
    active := true
    create_ts := 100
    creator_id := 1
    creator_name := "a"
    revoke_ts := none
    revoker_id := none
    revoker_name := none }

/-- Witness for C4: two records tagged at 300 and 100 produce the same
ascending timeline regardless of input order. -/
theorem mergeHistory_order_independent_witness :
    List.Chain' (fun a b => a.time ≤ b.time)
      (mergeHistory [recT300, recT100]) ∧
    mergeHistory [recT300, recT100] = mergeHistory [recT100, recT300] :=
  ⟨(mergeHistory_sorted_and_order_independent [recT300, recT100]
      [recT100, recT300]).1,
   (mergeHistory_sorted_and_order_independent [recT300, recT100]
      [recT100, recT300]).2 (by decide) (by decide)⟩

/-- C9: for every entry of the merged timeline, the rendered
`[still active]` suffix appears exactly when the entry is still active and
its action is the Tagged action; in particular every Untagged entry
renders without the suffix. -/
theorem stillActive_flag_spec (l : List KojiBuildTagging)
    (entry : TagActionHistoryType) (hmem : entry ∈ mergeHistory l) :
    (stillActiveFlag entry = "[still active]" ↔
      (entry.active = true ∧ entry.action = "tagged into")) ∧
    (entry.action = "untagged from" → stillActiveFlag entry = "") := by
  unfold mergeHistory at hmem
  have hmem2 : entry ∈ l.flatMap emitRecord :=
    (List.perm_insertionSort histLE (l.flatMap emitRecord)).mem_iff.mp hmem
  rw [List.mem_flatMap] at hmem2
  obtain ⟨e, _, hentry⟩ := hmem2
  have hcase : (entry.action = "tagged into" ∧ entry.active = e.active) ∨
      (entry.action = "untagged from" ∧ entry.active = false) := by
    unfold emitRecord at hentry
    by_cases hg : revokeGate e = true
    · simp [hg] at hentry
      rcases hentry with h | h <;> subst h
      · exact Or.inl ⟨rfl, rfl⟩
      · exact Or.inr ⟨rfl, rfl⟩
    · simp [hg] at hentry
      subst hentry
      exact Or.inl ⟨rfl, rfl⟩
  constructor
  · constructor
    · intro hflag
      by_cases ha : entry.active = true
      · refine ⟨ha, ?_⟩
        rcases hcase with ⟨hact, _⟩ | ⟨_, hfalse⟩
        · exact hact
        · rw [hfalse] at ha; exact absurd ha (by decide)
      · unfold stillActiveFlag at hflag
        rw [if_neg ha] at hflag
        exact absurd hflag (by decide)
    · rintro ⟨ha, -⟩
      unfold stillActiveFlag
      rw [if_pos ha]
  · intro hact
    rcases hcase with ⟨hact2, _⟩ | ⟨_, hfalse⟩
    · exact absurd (hact2.symm.trans hact) (by decide)
    · unfold stillActiveFlag
      rw [if_neg (by simp [hfalse])]

/-- A record with a full, truthy revoke, used by the C9 witness. -/
def fullRevokeRecord : KojiBuildTagging :=
  { tag_name := "t1"
    active := false
    create_ts := 100
    creator_id := 1
    creator_name := "a"
    revoke_ts := some 200
    revoker_id := some 2
    revoker_name := some "b" }

/-- Witness for C9 at the Untagged entry of a fully revoked record: the
suffix is absent. -/
theorem stillActive_flag_witness :
    (stillActiveFlag (untaggedEntry fullRevokeRecord) = "[still active]" ↔
      ((untaggedEntry fullRevokeRecord).active = true ∧
        (untaggedEntry fullRevokeRecord).action = "tagged into")) ∧
    ((untaggedEntry fullRevokeRecord).action = "untagged from" →
      stillActiveFlag (untaggedEntry fullRevokeRecord) = "") :=
  stillActive_flag_spec [fullRevokeRecord] (untaggedEntry fullRevokeRecord)
    (by decide)

end Ciboard
